import Mathlib

/-!
Shallow embedding of the repository's UI-layer building blocks:

* `FileSystemLogic.ts` — the abstract paginated/selectable content-list
  view-model.  Its mutable observable fields become the record `FSState`;
  each async operation becomes a state transformer.  The abstract request
  methods (`requestContentData`, `requestContentMove`, `requestContentRemove`,
  `requestContentRename`) that a subclass supplies are modelled as oracle
  arguments of type `Except ε _` (a resolved promise or a thrown error of
  abstract type `ε`).  Every operation additionally returns the list of
  abstract request methods it invoked (`ReqEvent`), in invocation order.

  The un-awaited `this.pagination()` call inside `removeContent` is modelled
  with JavaScript's event-loop ordering: the synchronous prefix of
  `paginationRequest` (setting the pagination loading flag and issuing the
  data request) runs inside `removeContent`, while its continuation (the
  `await` resumption) runs after the caller's remaining synchronous code,
  i.e. after `remove`/`move` clear the action loading state.

* `Factory.tsx` — the `CompoFactory` dispatch table, parametric in the
  rendered element type `El`, the payload of a `ValidateParam` with its
  `type` tag removed (`P`), and the change methods (`M`).

* `JenericComponent` — the scroll handler of the generic list component,
  as the pure predicate `scrollHandlerFires` on its inputs.
-/

/-- `LoadingState` from `../types`: the {in-flight flag, last error} tuple.
`error` is `null` or a thrown value of abstract type `ε`. -/
structure LoadingState (ε : Type) where
  loading : Bool
  error : Option ε
deriving DecidableEq

/-- `ContentStructure`: `{ id: number, name: string }`. -/
structure ContentStructure where
  id : Int
  name : String
deriving DecidableEq

/-- `ContentSelectStructure extends ContentStructure { selected: boolean }`. -/
structure ContentSelectStructure where
  id : Int
  name : String
  selected : Bool
deriving DecidableEq

/-- The `Sort` descriptor from `../types`; the code only ever reads its
optional `name` component (`'name' in this.sort`, `this.sort[sorting] === 1`),
so it is modelled as an optional numeric direction for `name`. -/
structure SortDesc where
  name : Option Int
deriving DecidableEq

/-- The `Request` shape `{ data: ContentStructure[], next_id: number,
total_count: number }`.  `data` is `Option` because the code null-checks it
(`if (response.data)`); an empty array is `some []` (truthy in JS). -/
structure RequestResponse where
  data : Option (List ContentStructure)
  next_id : Int
  total_count : Int
deriving DecidableEq

/-- The observable fields of a `FileSystemLogic` instance. -/
structure FSState (ε : Type) where
  content : List ContentSelectStructure
  totalCount : Int
  nextId : Int
  sort : SortDesc
  state : LoadingState ε
  paginationState : LoadingState ε
  actionState : LoadingState ε
  selectedAll : Bool
  removedElements : Option (List ContentSelectStructure)
deriving DecidableEq

/-- One invocation of an abstract request method. -/
inductive ReqEvent where
  | dataReq
  | moveReq
  | removeReq
  | renameReq
deriving DecidableEq

variable {ε : Type}

/-- `getAllSelectedIds`. -/
def getAllSelectedIds (s : FSState ε) : List Int :=
  (s.content.filter (fun item => item.selected)).map (fun item => item.id)

/-- `getAllUnselectedIds`. -/
def getAllUnselectedIds (s : FSState ε) : List Int :=
  (s.content.filter (fun item => !item.selected)).map (fun item => item.id)

/-- `getSelectedIds`. -/
def getSelectedIds (s : FSState ε) : List Int :=
  if s.selectedAll then getAllUnselectedIds s else getAllSelectedIds s

/-- `get selectedCount`.  The source's `this.content && this.content.length > 0`
is always truthy in its first conjunct (an array object), so only the length
test remains. -/
def selectedCount (s : FSState ε) : Int :=
  if s.selectedAll then
    s.totalCount - ((s.content.filter (fun item => !item.selected)).length : Int)
  else
    if s.content.length > 0 then
      ((s.content.filter (fun item => item.selected)).length : Int)
    else 0

/-- Spread-merge of a `Partial<LoadingState>` into a `LoadingState`
(`{ ...this.x, ...state }`): a field is overwritten when present. -/
def mergeLoading (st : LoadingState ε) (loading : Option Bool) (error : Option (Option ε)) :
    LoadingState ε :=
  { loading := loading.getD st.loading, error := error.getD st.error }

/-- `changeState`. -/
def changeState (s : FSState ε) (loading : Option Bool) (error : Option (Option ε)) :
    FSState ε :=
  { s with state := mergeLoading s.state loading error }

/-- `changePaginationState`. -/
def changePaginationState (s : FSState ε) (loading : Option Bool) (error : Option (Option ε)) :
    FSState ε :=
  { s with paginationState := mergeLoading s.paginationState loading error }

/-- `changeActionState`. -/
def changeActionState (s : FSState ε) (loading : Option Bool) (error : Option (Option ε)) :
    FSState ε :=
  { s with actionState := mergeLoading s.actionState loading error }

/-- `convert`: add the `selected` field, initialised from `this.selectedAll`. -/
def convert (selectedAll : Bool) (content : List ContentStructure) :
    List ContentSelectStructure :=
  content.map (fun item => { id := item.id, name := item.name, selected := selectedAll })

/-- `renameContent`: `findIndex` plus in-place assignment renames the first
item with the given id (later duplicates are untouched). -/
def setNameFirst : List ContentSelectStructure → Int → String → List ContentSelectStructure
  | [], _, _ => []
  | item :: rest, id, name =>
      if item.id = id then { item with name := name } :: rest
      else item :: setNameFirst rest id name

/-- `onToggleSelected`'s body: `findIndex` plus in-place assignment sets the
`selected` flag of the first item with the given id. -/
def setSelectedFirst : List ContentSelectStructure → Int → Bool → List ContentSelectStructure
  | [], _, _ => []
  | item :: rest, id, sel =>
      if item.id = id then { item with selected := sel } :: rest
      else item :: setSelectedFirst rest id sel

/-- Lower-casing as in `String.prototype.toLowerCase`, character-wise. -/
def toLowerStr (s : String) : String := ⟨s.data.map Char.toLower⟩

/-- Code-unit lexicographic ordering of character lists, as JavaScript's
`<`/`>` on strings. -/
def charListLe : List Char → List Char → Bool
  | [], _ => true
  | _ :: _, [] => false
  | a :: as, b :: bs =>
      if a.toNat < b.toNat then true
      else if b.toNat < a.toNat then false
      else charListLe as bs

/-- `a <= b` on strings (i.e. `¬(a > b)` for JS total string order). -/
def strLe (a b : String) : Bool := charListLe a.data b.data

/-- `sortContent` for the only call site (`field = 'name'`, `sorting = 'name'`):
a stable sort (as `Array.prototype.sort`) by the lower-cased `name`, ascending
when `this.sort.name === 1`, descending otherwise. -/
def sortContent (sd : SortDesc) (content : List ContentSelectStructure) :
    List ContentSelectStructure :=
  if sd.name = some 1 then
    List.insertionSort (fun a b => strLe (toLowerStr a.name) (toLowerStr b.name)) content
  else
    List.insertionSort (fun a b => strLe (toLowerStr b.name) (toLowerStr a.name)) content

/-- `contentRequest`, with the single `requestContentData` outcome `res`. -/
def contentRequest (res : Except ε RequestResponse) (s : FSState ε) :
    FSState ε × List ReqEvent :=
  let s1 := changeState s (some true) none
  match res with
  | Except.ok response =>
      let s2 :=
        match response.data with
        | some d =>
            { s1 with
              totalCount := response.total_count
              nextId := response.next_id
              content := convert s1.selectedAll d }
        | none => s1
      (changeState s2 (some false) (some none), [ReqEvent.dataReq])
  | Except.error e => (changeState s1 (some false) (some (some e)), [ReqEvent.dataReq])

/-- Synchronous prefix of `paginationRequest`: set the pagination loading flag
(the data request is issued right after, recorded by the caller). -/
def paginationStart (s : FSState ε) : FSState ε :=
  changePaginationState s (some true) none

/-- Continuation of `paginationRequest` once `requestContentData` settles. -/
def paginationResume (res : Except ε RequestResponse) (s : FSState ε) : FSState ε :=
  match res with
  | Except.ok response =>
      let s2 :=
        match response.data with
        | some d =>
            { s with
              nextId := response.next_id
              content := s.content ++ convert s.selectedAll d }
        | none => s
      changePaginationState s2 (some false) (some none)
  | Except.error e => changePaginationState s (some false) (some (some e))

/-- `paginationRequest`, run to completion. -/
def paginationRequest (res : Except ε RequestResponse) (s : FSState ε) :
    FSState ε × List ReqEvent :=
  (paginationResume res (paginationStart s), [ReqEvent.dataReq])

/-- `pagination`. -/
def pagination (res : Except ε RequestResponse) (s : FSState ε) :
    FSState ε × List ReqEvent :=
  if s.nextId > 0 ∧ s.totalCount > s.nextId then paginationRequest res s else (s, [])

/-- `rename`, with the `requestContentRename` outcome `res`. -/
def rename (res : Except ε Unit) (id : Int) (name : String) (s : FSState ε) :
    FSState ε × List ReqEvent :=
  let s1 := changeActionState s (some true) none
  match res with
  | Except.error e =>
      (changeActionState s1 (some false) (some (some e)), [ReqEvent.renameReq])
  | Except.ok _ =>
      let s2 := { s1 with content := setNameFirst s1.content id name }
      let s3 :=
        if s2.sort.name.isSome then
          let newContent := sortContent s2.sort s2.content
          let lastElement := newContent.drop (newContent.length - 1)
          if newContent.length > 1
              ∧ lastElement.head?.map (fun it => it.id) = some id
              ∧ s2.totalCount > s2.nextId then
            { s2 with
              content := newContent.dropLast
              removedElements := some lastElement
              nextId := s2.nextId - 1 }
          else s2
        else s2
      (changeActionState s3 (some false) (some none), [ReqEvent.renameReq])

/-- `getSelected`: `[id]` when `id !== undefined`, else `getSelectedIds()`. -/
def getSelected (idOpt : Option Int) (s : FSState ε) : List Int :=
  match idOpt with
  | some i => [i]
  | none => getSelectedIds s

/-- `removeContent`, including the synchronous prefix of the un-awaited
`this.pagination()` call.  Returns the state together with whether a
pagination data request was issued (its continuation is pending).
Note `const ids = id ? [id] : this.getAllSelectedIds()` tests truthiness,
so `id === 0` falls through to `getAllSelectedIds`. -/
def removeContentSync (idOpt : Option Int) (s : FSState ε) : FSState ε × Bool :=
  if idOpt.isSome || !s.selectedAll then
    let ids : List Int :=
      match idOpt with
      | some i => if i ≠ 0 then [i] else getAllSelectedIds s
      | none => getAllSelectedIds s
    let removed := s.content.filter (fun entity => ids.contains entity.id)
    let result := s.content.filter (fun entity => !ids.contains entity.id)
    let s1 := { s with totalCount := s.totalCount - (ids.length : Int) }
    let s2 : FSState ε :=
      if removed.length > 0 then { s1 with removedElements := some removed } else s1
    let pending : Bool := decide (s2.nextId > 0 ∧ s2.totalCount > s2.nextId)
    let s3 := if pending then paginationStart s2 else s2
    let s4 := { s3 with content := result }
    let s5 := { s4 with selectedAll := false }
    let s6 := { s5 with content := s5.content.map (fun item => { item with selected := false }) }
    (s6, pending)
  else
    let result := s.content.filter (fun item => (getAllUnselectedIds s).contains item.id)
    let s1 := { s with totalCount := (result.length : Int) }
    let s2 := { s1 with content := result }
    let s3 := { s2 with selectedAll := false }
    let s4 := { s3 with content := s3.content.map (fun item => { item with selected := false }) }
    (s4, false)

/-- `remove`, with the `requestContentRemove` outcome `removeRes` and, for the
possibly-triggered pagination refill, the `requestContentData` outcome
`dataRes`.  The pending pagination continuation resumes after `remove`'s own
synchronous code (JS event loop). -/
def remove (removeRes : Except ε Unit) (dataRes : Except ε RequestResponse)
    (idOpt : Option Int) (s : FSState ε) : FSState ε × List ReqEvent :=
  let ids := getSelected idOpt s
  if s.selectedAll ∨ ids.length > 0 then
    let s1 := changeActionState s (some true) none
    match removeRes with
    | Except.error e =>
        (changeActionState s1 (some false) (some (some e)), [ReqEvent.removeReq])
    | Except.ok _ =>
        let rc := removeContentSync idOpt s1
        let s3 := changeActionState rc.1 (some false) (some none)
        if rc.2 then (paginationResume dataRes s3, [ReqEvent.removeReq, ReqEvent.dataReq])
        else (s3, [ReqEvent.removeReq])
  else (s, [])

/-- `move`, with the `requestContentMove` outcome `moveRes`; `toDir` is passed
to the abstract request and does not touch the list state. -/
def move (moveRes : Except ε Unit) (dataRes : Except ε RequestResponse)
    (toDir : Int) (idOpt : Option Int) (s : FSState ε) : FSState ε × List ReqEvent :=
  let _ := toDir
  let ids := getSelected idOpt s
  if s.selectedAll ∨ ids.length > 0 then
    let s1 := changeActionState s (some true) none
    match moveRes with
    | Except.error e =>
        (changeActionState s1 (some false) (some (some e)), [ReqEvent.moveReq])
    | Except.ok _ =>
        let rc := removeContentSync idOpt s1
        let s3 := changeActionState rc.1 (some false) (some none)
        if rc.2 then (paginationResume dataRes s3, [ReqEvent.moveReq, ReqEvent.dataReq])
        else (s3, [ReqEvent.moveReq])
  else (s, [])

/-- `onToggleSelected`. -/
def onToggleSelected (id : Int) (selected : Bool) (s : FSState ε) :
    FSState ε × List ReqEvent :=
  ({ s with content := setSelectedFirst s.content id selected }, [])

/-- `onChangeSort`, with the `requestContentData` outcome `res`. -/
def onChangeSort (res : Except ε RequestResponse) (sd : SortDesc) (s : FSState ε) :
    FSState ε × List ReqEvent :=
  let s1 := { s with sort := sd, nextId := 0 }
  contentRequest res s1

/-- The `ParamsType` tags of the factories registered in `CompoFactory`'s
constructor. -/
inductive ParamsType where
  | text
  | link
  | image
  | color
  | px
  | number
  | percent
  | textAlign
  | fontFamily
  | border
  | position
  | animation
deriving DecidableEq

/-- A `ValidateParam`: the discriminant `type` tag plus the remaining payload
(abstracted as `P`, standing for `OmitType<ValidateParam>`). -/
structure ValidateParam (P : Type) where
  type : ParamsType
  params : P

/-- `FactoryProps`: the payload without its `type` tag, plus the change
methods (abstracted as `M`). -/
structure FactoryProps (P M : Type) where
  data : P
  methods : M

/-- A `Factory`: its discriminant tag and its `create` strategy producing an
element of abstract type `El` (standing for `JSX.Element`). -/
structure Factory (El P M : Type) where
  type : ParamsType
  create : FactoryProps P M → El

/-- `ComponentProps`: the full `ValidateParam` plus the change methods. -/
structure ComponentProps (P M : Type) where
  data : ValidateParam P
  methods : M

/-- One step of `registerFactories`' `forEach` assignment
`this.factories[factory.type] = factory`. -/
def regStep {El P M : Type} (acc : ParamsType → Option (Factory El P M))
    (factory : Factory El P M) : ParamsType → Option (Factory El P M) :=
  fun t => if t = factory.type then some factory else acc t

/-- `registerFactories`: builds the dispatch map, later assignments winning. -/
def registerFactories {El P M : Type} (factories : List (Factory El P M)) :
    ParamsType → Option (Factory El P M) :=
  factories.foldl regStep (fun _ => none)

/-- `CompoFactory.component`: split `type` off the data, look the tag up, and
call the found factory's `create` on the rest (or `undefined` when absent). -/
def component {El P M : Type} (factories : ParamsType → Option (Factory El P M))
    (props : ComponentProps P M) : Option El :=
  (factories props.data.type).map
    (fun factory => factory.create { data := props.data.params, methods := props.methods })

/-- Metrics read from `contentRef.current`. -/
structure ContentMetrics where
  scrollHeight : Int
deriving DecidableEq

/-- Metrics read from `scrollContainer.current`. -/
structure ScrollMetrics where
  scrollTop : Int
  clientHeight : Int
deriving DecidableEq

/-- The body of `JenericComponent`'s debounced `scrollHandler`: whether one
handled scroll event invokes `onPagination`.  `loadingState` is `undefined`
when no `getPaginationState` prop is given (`!loadingState?.loading` is then
true); `hasOnPagination` is the presence of the `onPagination` prop; the two
`Option` metrics are the presence of the refs' `current` elements. -/
def scrollHandlerFires (loadingState : Option (LoadingState ε)) (hasOnPagination : Bool)
    (contentRef : Option ContentMetrics) (scrollContainer : Option ScrollMetrics) : Bool :=
  if (match loadingState with
      | some ls => !ls.loading
      | none => true)
      && hasOnPagination && contentRef.isSome && scrollContainer.isSome then
    match contentRef, scrollContainer with
    | some c, some sc => decide (c.scrollHeight - (sc.scrollTop + sc.clientHeight) ≤ 35)
    | _, _ => false
  else false

/-! Helper facts about the Boolean selection predicates. -/

theorem selPredFalse :
    (fun (it : ContentSelectStructure) => !it.selected)
      = (fun (it : ContentSelectStructure) => decide (it.selected = false)) := by
  funext it; cases it.selected <;> rfl

theorem selPredTrue :
    (fun (it : ContentSelectStructure) => it.selected)
      = (fun (it : ContentSelectStructure) => decide (it.selected = true)) := by
  funext it; cases it.selected <;> rfl

/-- C2: the selected count is consistent with the select-all flag: with the
flag set it is `totalCount` minus the number of loaded items left unselected;
otherwise it is the number of loaded items selected (zero for an empty list). -/
theorem c2_selectedCount_consistency {ε : Type} (s : FSState ε) :
    selectedCount s =
      if s.selectedAll then
        s.totalCount - ((s.content.filter (fun it => it.selected = false)).length : Int)
      else
        ((s.content.filter (fun it => it.selected = true)).length : Int) := by
  unfold selectedCount
  rw [← selPredFalse, ← selPredTrue]
  by_cases h : s.selectedAll
  · simp [h]
  · simp only [h, if_false]
    cases hc : s.content with
    | nil => simp
    | cons a l => simp

/-- C3: `getSelectedIds` returns the ids of the loaded items left unselected
when the select-all flag is set, and the ids of the selected loaded items
otherwise. -/
theorem c3_getSelectedIds_inverse {ε : Type} (s : FSState ε) :
    getSelectedIds s =
      if s.selectedAll then
        (s.content.filter (fun it => it.selected = false)).map (fun it => it.id)
      else
        (s.content.filter (fun it => it.selected = true)).map (fun it => it.id) := by
  unfold getSelectedIds getAllSelectedIds getAllUnselectedIds
  rw [← selPredFalse, ← selPredTrue]

/-- C6: whenever the initial content request or the pagination request
resolves with a non-null `data` field, the stored cursor equals the
response's `next_id`. -/
theorem c6_nextId_server_supplied {ε : Type} (r : RequestResponse)
    (d : List ContentStructure) (s : FSState ε) (h : r.data = some d) :
    (contentRequest (Except.ok r) s).1.nextId = r.next_id
      ∧ (paginationRequest (Except.ok r) s).1.nextId = r.next_id := by
  constructor <;>
    simp [contentRequest, paginationRequest, paginationResume, paginationStart,
      changeState, changePaginationState, mergeLoading, h]

def c6r : RequestResponse := { data := some [⟨5, "x"⟩], next_id := 4, total_count := 9 }

def c6s : FSState Nat :=
  { content := []
    totalCount := 0
    nextId := 0
    sort := ⟨some (-1)⟩
    state := ⟨false, none⟩
    paginationState := ⟨false, none⟩
    actionState := ⟨false, none⟩
    selectedAll := false
    removedElements := none }

/-- Witness for C6 at a concrete response with non-null data. -/
theorem c6_nextId_server_supplied_witness :
    (contentRequest (Except.ok c6r) c6s).1.nextId = c6r.next_id
      ∧ (paginationRequest (Except.ok c6r) c6s).1.nextId = c6r.next_id :=
  c6_nextId_server_supplied c6r [⟨5, "x"⟩] c6s rfl

/-- C7: `pagination()` issues the abstract content-data request exactly when
`nextId > 0` and `totalCount > nextId`; otherwise it performs no request and
returns the state unchanged. -/
theorem c7_pagination_guard {ε : Type} (res : Except ε RequestResponse) (s : FSState ε) :
    (ReqEvent.dataReq ∈ (pagination res s).2 ↔ (s.nextId > 0 ∧ s.totalCount > s.nextId))
      ∧ (¬(s.nextId > 0 ∧ s.totalCount > s.nextId) → pagination res s = (s, [])) := by
  unfold pagination
  by_cases h : s.nextId > 0 ∧ s.totalCount > s.nextId
  · rw [if_pos h]
    exact ⟨by simp [paginationRequest, h], fun hc => absurd h hc⟩
  · rw [if_neg h]
    exact ⟨by simp [h], fun _ => rfl⟩

def c7s : FSState Nat := { c6s with totalCount := 10, nextId := 2 }

/-- Witness for C7: the guard holds at a concrete state and the data request
is issued. -/
theorem c7_pagination_guard_witness :
    ReqEvent.dataReq ∈ (pagination (Except.error (1 : Nat)) c7s).2 :=
  (c7_pagination_guard (Except.error (1 : Nat)) c7s).1.mpr (by decide)

/-- C9: one handled scroll event invokes the pagination callback exactly when
the pagination loading flag is not set, the callback and both refs are
present, and the content's scroll height minus (scroll top plus client
height) is at most 35. -/
theorem c9_scroll_trigger_iff {ε : Type} (ls : Option (LoadingState ε)) (cb : Bool)
    (cm : Option ContentMetrics) (sm : Option ScrollMetrics) :
    scrollHandlerFires ls cb cm sm = true ↔
      ((∀ l, ls = some l → l.loading = false) ∧ cb = true
        ∧ ∃ c sc, cm = some c ∧ sm = some sc
            ∧ c.scrollHeight - (sc.scrollTop + sc.clientHeight) ≤ 35) := by
  cases ls with
  | none => cases cm <;> cases sm <;> cases cb <;> simp [scrollHandlerFires]
  | some l =>
      cases hl : l.loading <;> cases cm <;> cases sm <;> cases cb <;>
        simp [scrollHandlerFires, hl]

/-- Witness for C9: the handler fires at concrete inputs 30 pixels from the
bottom. -/
theorem c9_scroll_trigger_iff_witness :
    scrollHandlerFires (ε := Nat) none true (some ⟨100⟩) (some ⟨40, 30⟩) = true :=
  (c9_scroll_trigger_iff (ε := Nat) none true (some ⟨100⟩) (some ⟨40, 30⟩)).mpr
    ⟨(fun l hl => nomatch hl), rfl, ⟨⟨100⟩, ⟨40, 30⟩, rfl, rfl, by decide⟩⟩

/-- C1 (amended): rename and change-sort always invoke an abstract request
method; remove and move invoke one exactly when the select-all flag is set or
the computed id list is non-empty, and otherwise perform no request;
toggle-select is a purely local update invoking no abstract request method. -/
theorem c1_request_dispatch_amended {ε : Type} (renRes remRes movRes : Except ε Unit)
    (sortRes dataRes : Except ε RequestResponse) (id toDir : Int) (nm : String)
    (sel : Bool) (sd : SortDesc) (idOpt : Option Int) (s : FSState ε) :
    (rename renRes id nm s).2 = [ReqEvent.renameReq]
    ∧ (onChangeSort sortRes sd s).2 = [ReqEvent.dataReq]
    ∧ ((s.selectedAll ∨ (getSelected idOpt s).length > 0) →
        ReqEvent.removeReq ∈ (remove remRes dataRes idOpt s).2)
    ∧ (¬(s.selectedAll ∨ (getSelected idOpt s).length > 0) →
        (remove remRes dataRes idOpt s).2 = [])
    ∧ ((s.selectedAll ∨ (getSelected idOpt s).length > 0) →
        ReqEvent.moveReq ∈ (move movRes dataRes toDir idOpt s).2)
    ∧ (¬(s.selectedAll ∨ (getSelected idOpt s).length > 0) →
        (move movRes dataRes toDir idOpt s).2 = [])
    ∧ (onToggleSelected id sel s).2 = [] := by
  refine ⟨?_, ?_, ?_, ?_, ?_, ?_, rfl⟩
  · cases renRes <;> rfl
  · cases sortRes <;> rfl
  · intro h
    cases remRes with
    | error e => simp [remove, h]
    | ok u =>
        simp only [remove, h, if_true]
        split <;> simp
  · intro h
    simp only [remove, h, if_false]
  · intro h
    cases movRes with
    | error e => simp [move, h]
    | ok u =>
        simp only [move, h, if_true]
        split <;> simp
  · intro h
    simp only [move, h, if_false]

/-- C1 counterexample: at a concrete state, a toggle-select invocation
performs no abstract request at all, refuting that every invocation of each
of the five exposed operations invokes at least one abstract request
method. -/
theorem c1_toggleSelected_no_request :
    (onToggleSelected 1 true c6s).2 = [] := rfl

def c1w : FSState Nat := { c6s with selectedAll := true, content := [⟨1, "a", true⟩] }

/-- Witness for C1 (amended): with the select-all flag set, a remove
invocation issues the abstract remove request. -/
theorem c1_request_dispatch_amended_witness :
    ReqEvent.removeReq ∈ (remove (Except.ok ()) (Except.error (1 : Nat)) none c1w).2 :=
  (c1_request_dispatch_amended (Except.ok ()) (Except.ok ()) (Except.ok ())
    (Except.error 1) (Except.error 1) 0 0 "n" true ⟨none⟩ none c1w).2.2.1
    (Or.inl (by decide))

/-- C4: when the underlying abstract remove or move request throws, the list
state (content, total count, cursor, select-all flag, and hence every item's
selected flag) is unchanged and the action loading state ends as
`{loading: false, error: e}`. -/
theorem c4_remove_move_error_atomic {ε : Type} (e : ε) (dataRes : Except ε RequestResponse)
    (idOpt : Option Int) (toDir : Int) (s : FSState ε)
    (h : s.selectedAll ∨ (getSelected idOpt s).length > 0) :
    ((remove (Except.error e) dataRes idOpt s).1.content = s.content
      ∧ (remove (Except.error e) dataRes idOpt s).1.totalCount = s.totalCount
      ∧ (remove (Except.error e) dataRes idOpt s).1.nextId = s.nextId
      ∧ (remove (Except.error e) dataRes idOpt s).1.selectedAll = s.selectedAll
      ∧ (remove (Except.error e) dataRes idOpt s).1.actionState = ⟨false, some e⟩)
    ∧ ((move (Except.error e) dataRes toDir idOpt s).1.content = s.content
      ∧ (move (Except.error e) dataRes toDir idOpt s).1.totalCount = s.totalCount
      ∧ (move (Except.error e) dataRes toDir idOpt s).1.nextId = s.nextId
      ∧ (move (Except.error e) dataRes toDir idOpt s).1.selectedAll = s.selectedAll
      ∧ (move (Except.error e) dataRes toDir idOpt s).1.actionState = ⟨false, some e⟩) := by
  simp only [remove, move, h, if_true]
  simp [changeActionState, mergeLoading]

def c4s : FSState Nat := { c6s with content := [⟨1, "a", true⟩], totalCount := 5 }

/-- Witness for C4 at a concrete state and error. -/
theorem c4_remove_move_error_atomic_witness :
    (c4s.selectedAll ∨ (getSelected (some 1) c4s).length > 0)
    ∧ (remove (Except.error (3 : Nat)) (Except.ok c6r) (some 1) c4s).1.actionState
        = ⟨false, some 3⟩ :=
  ⟨by decide,
    (c4_remove_move_error_atomic 3 (Except.ok c6r) (some 1) 0 c4s (by decide)).1.2.2.2.2⟩

/-! Selection-reset facts used by C10. -/

theorem removeContentSync_selectionReset {ε : Type} (idOpt : Option Int) (s : FSState ε) :
    (removeContentSync idOpt s).1.selectedAll = false
    ∧ ∀ it ∈ (removeContentSync idOpt s).1.content, it.selected = false := by
  unfold removeContentSync
  split
  · refine ⟨rfl, ?_⟩
    intro it hit
    simp only [List.mem_map] at hit
    obtain ⟨x, hx, rfl⟩ := hit
    rfl
  · refine ⟨rfl, ?_⟩
    intro it hit
    simp only [List.mem_map] at hit
    obtain ⟨x, hx, rfl⟩ := hit
    rfl

theorem paginationResume_selectionReset {ε : Type} (res : Except ε RequestResponse)
    (s : FSState ε) (h1 : s.selectedAll = false)
    (h2 : ∀ it ∈ s.content, it.selected = false) :
    (paginationResume res s).selectedAll = false
    ∧ ∀ it ∈ (paginationResume res s).content, it.selected = false := by
  cases res with
  | error e => exact ⟨h1, h2⟩
  | ok response =>
      obtain ⟨rd, rn, rt⟩ := response
      cases rd with
      | none => exact ⟨h1, h2⟩
      | some d =>
          refine ⟨h1, ?_⟩
          intro it hit
          simp only [paginationResume, changePaginationState, convert, h1] at hit ⊢
          rcases List.mem_append.mp hit with hin | hin
          · exact h2 it hin
          · simp only [List.mem_map] at hin
            obtain ⟨x, hx, rfl⟩ := hin
            rfl

/-- C10: after a remove or move whose underlying abstract request succeeds,
the select-all flag is false and every item remaining in `content` (including
any appended by the triggered pagination refill) has its selected flag
false. -/
theorem c10_remove_move_selection_reset {ε : Type} (dataRes : Except ε RequestResponse)
    (idOpt : Option Int) (toDir : Int) (s : FSState ε)
    (h : s.selectedAll ∨ (getSelected idOpt s).length > 0) :
    ((remove (Except.ok ()) dataRes idOpt s).1.selectedAll = false
      ∧ ∀ it ∈ (remove (Except.ok ()) dataRes idOpt s).1.content, it.selected = false)
    ∧ ((move (Except.ok ()) dataRes toDir idOpt s).1.selectedAll = false
      ∧ ∀ it ∈ (move (Except.ok ()) dataRes toDir idOpt s).1.content, it.selected = false) := by
  have key := removeContentSync_selectionReset idOpt (changeActionState s (some true) none)
  constructor
  · simp only [remove, h, if_true]
    split
    · exact paginationResume_selectionReset dataRes _ key.1 key.2
    · exact ⟨key.1, key.2⟩
  · simp only [move, h, if_true]
    split
    · exact paginationResume_selectionReset dataRes _ key.1 key.2
    · exact ⟨key.1, key.2⟩

/-- Witness for C10 at a concrete state where an item is selected. -/
theorem c10_remove_move_selection_reset_witness :
    (c4s.selectedAll ∨ (getSelected (some 1) c4s).length > 0)
    ∧ (remove (Except.ok ()) (Except.ok c6r) (some 1) c4s).1.selectedAll = false :=
  ⟨by decide,
    (c10_remove_move_selection_reset (Except.ok c6r) (some 1) 0 c4s (by decide)).1.1⟩

/-! Loading-state frame facts used by C5. -/

theorem paginationResume_state {ε : Type} (res : Except ε RequestResponse) (s : FSState ε) :
    (paginationResume res s).state = s.state := by
  cases res with
  | error e => rfl
  | ok response =>
      obtain ⟨rd, rn, rt⟩ := response
      cases rd <;> rfl

theorem paginationResume_actionState {ε : Type} (res : Except ε RequestResponse) (s : FSState ε) :
    (paginationResume res s).actionState = s.actionState := by
  cases res with
  | error e => rfl
  | ok response =>
      obtain ⟨rd, rn, rt⟩ := response
      cases rd <;> rfl

theorem removeContentSync_state {ε : Type} (idOpt : Option Int) (s : FSState ε) :
    (removeContentSync idOpt s).1.state = s.state := by
  simp only [removeContentSync]
  repeat' split
  all_goals rfl

theorem removeContentSync_actionState {ε : Type} (idOpt : Option Int) (s : FSState ε) :
    (removeContentSync idOpt s).1.actionState = s.actionState := by
  simp only [removeContentSync]
  repeat' split
  all_goals rfl

theorem removeContentSync_pagOr {ε : Type} (idOpt : Option Int) (s : FSState ε) :
    (removeContentSync idOpt s).2 = true
    ∨ (removeContentSync idOpt s).1.paginationState = s.paginationState := by
  simp only [removeContentSync]
  repeat' split
  all_goals first
  | exact Or.inr rfl
  | exact Or.inl (by assumption)

theorem rename_loading_frames {ε : Type} (res : Except ε Unit) (id : Int) (nm : String)
    (s : FSState ε) :
    (rename res id nm s).1.state = s.state
    ∧ (rename res id nm s).1.paginationState = s.paginationState := by
  cases res with
  | error e => exact ⟨rfl, rfl⟩
  | ok u =>
      constructor <;>
        · simp only [rename]
          repeat' split
          all_goals rfl

theorem contentRequest_frames {ε : Type} (res : Except ε RequestResponse) (s : FSState ε) :
    (contentRequest res s).1.paginationState = s.paginationState
    ∧ (contentRequest res s).1.actionState = s.actionState := by
  cases res with
  | error e => exact ⟨rfl, rfl⟩
  | ok response =>
      obtain ⟨rd, rn, rt⟩ := response
      cases rd <;> exact ⟨rfl, rfl⟩

theorem paginationRequest_frames {ε : Type} (res : Except ε RequestResponse) (s : FSState ε) :
    (paginationRequest res s).1.state = s.state
    ∧ (paginationRequest res s).1.actionState = s.actionState :=
  ⟨paginationResume_state res (paginationStart s),
    paginationResume_actionState res (paginationStart s)⟩

theorem remove_loading_frames {ε : Type} (remRes : Except ε Unit)
    (dataRes : Except ε RequestResponse) (idOpt : Option Int) (s : FSState ε) :
    (remove remRes dataRes idOpt s).1.state = s.state
    ∧ (ReqEvent.dataReq ∉ (remove remRes dataRes idOpt s).2 →
        (remove remRes dataRes idOpt s).1.paginationState = s.paginationState) := by
  by_cases h : s.selectedAll ∨ (getSelected idOpt s).length > 0
  · cases remRes with
    | error e =>
        simp only [remove, h, if_true]
        exact ⟨rfl, fun _ => rfl⟩
    | ok u =>
        simp only [remove, h, if_true]
        cases hb : (removeContentSync idOpt (changeActionState s (some true) none)).2 with
        | true =>
            rw [if_pos rfl]
            constructor
            · exact (paginationResume_state dataRes _).trans (removeContentSync_state idOpt _)
            · intro hne
              simp at hne
        | false =>
            rw [if_neg (by simp)]
            constructor
            · exact removeContentSync_state idOpt _
            · intro hne
              rcases removeContentSync_pagOr idOpt (changeActionState s (some true) none)
                with hp | hp
              · rw [hb] at hp
                exact absurd hp (by simp)
              · exact hp
  · simp [remove, h]

theorem move_loading_frames {ε : Type} (movRes : Except ε Unit)
    (dataRes : Except ε RequestResponse) (toDir : Int) (idOpt : Option Int) (s : FSState ε) :
    (move movRes dataRes toDir idOpt s).1.state = s.state
    ∧ (ReqEvent.dataReq ∉ (move movRes dataRes toDir idOpt s).2 →
        (move movRes dataRes toDir idOpt s).1.paginationState = s.paginationState) := by
  by_cases h : s.selectedAll ∨ (getSelected idOpt s).length > 0
  · cases movRes with
    | error e =>
        simp only [move, h, if_true]
        exact ⟨rfl, fun _ => rfl⟩
    | ok u =>
        simp only [move, h, if_true]
        cases hb : (removeContentSync idOpt (changeActionState s (some true) none)).2 with
        | true =>
            rw [if_pos rfl]
            constructor
            · exact (paginationResume_state dataRes _).trans (removeContentSync_state idOpt _)
            · intro hne
              simp at hne
        | false =>
            rw [if_neg (by simp)]
            constructor
            · exact removeContentSync_state idOpt _
            · intro hne
              rcases removeContentSync_pagOr idOpt (changeActionState s (some true) none)
                with hp | hp
              · rw [hb] at hp
                exact absurd hp (by simp)
              · exact hp
  · simp [move, h]

/-- C5 (amended): rename leaves the initial and pagination loading states
unchanged; remove and move leave the initial loading state unchanged, and the
pagination loading state too whenever they issue no content-data request
(i.e. no pagination refill is triggered); the pagination request leaves the
initial and action loading states unchanged; the initial content request
leaves the pagination and action loading states unchanged. -/
theorem c5_loading_state_frames {ε : Type} (renRes remRes movRes : Except ε Unit)
    (dataRes dataRes2 : Except ε RequestResponse) (id toDir : Int) (nm : String)
    (idOpt : Option Int) (s : FSState ε) :
    ((rename renRes id nm s).1.state = s.state
      ∧ (rename renRes id nm s).1.paginationState = s.paginationState)
    ∧ ((remove remRes dataRes idOpt s).1.state = s.state)
    ∧ (ReqEvent.dataReq ∉ (remove remRes dataRes idOpt s).2 →
        (remove remRes dataRes idOpt s).1.paginationState = s.paginationState)
    ∧ ((move movRes dataRes toDir idOpt s).1.state = s.state)
    ∧ (ReqEvent.dataReq ∉ (move movRes dataRes toDir idOpt s).2 →
        (move movRes dataRes toDir idOpt s).1.paginationState = s.paginationState)
    ∧ ((paginationRequest dataRes2 s).1.state = s.state
      ∧ (paginationRequest dataRes2 s).1.actionState = s.actionState)
    ∧ ((contentRequest dataRes2 s).1.paginationState = s.paginationState
      ∧ (contentRequest dataRes2 s).1.actionState = s.actionState) :=
  ⟨rename_loading_frames renRes id nm s,
    (remove_loading_frames remRes dataRes idOpt s).1,
    (remove_loading_frames remRes dataRes idOpt s).2,
    (move_loading_frames movRes dataRes toDir idOpt s).1,
    (move_loading_frames movRes dataRes toDir idOpt s).2,
    paginationRequest_frames dataRes2 s,
    contentRequest_frames dataRes2 s⟩

def c5s : FSState Nat := { c6s with content := [⟨1, "a", true⟩], totalCount := 10, nextId := 2 }

/-- C5 counterexample: at a concrete state, a successful remove triggers the
pagination refill inside `removeContent`, so the run also writes the
pagination loading state (here its data request throws, leaving the error
behind), refuting that a remove run changes only the action loading state. -/
theorem c5_remove_writes_pagination_state :
    (remove (Except.ok ()) (Except.error (7 : Nat)) (some 1) c5s).1.paginationState
      ≠ c5s.paginationState := by decide

/-- Witness for C5 (amended): a concrete remove issuing no data request
leaves the pagination loading state unchanged. -/
theorem c5_loading_state_frames_witness :
    (remove (Except.ok ()) (Except.error (2 : Nat)) (some 1) c6s).1.paginationState
      = c6s.paginationState :=
  (c5_loading_state_frames (Except.ok ()) (Except.ok ()) (Except.ok ())
    (Except.error 2) (Except.error 2) 0 0 "n" (some 1) c6s).2.2.1 (by decide)

/-! Registry lookup facts used by C8. -/

theorem regFoldl_skip {El P M : Type} (fs : List (Factory El P M))
    (acc : ParamsType → Option (Factory El P M)) (t : ParamsType)
    (h : ∀ g ∈ fs, g.type ≠ t) :
    fs.foldl regStep acc t = acc t := by
  induction fs generalizing acc with
  | nil => rfl
  | cons a as ih =>
      simp only [List.foldl_cons]
      rw [ih _ (fun g hg => h g (List.mem_cons_of_mem a hg))]
      simp only [regStep]
      rw [if_neg]
      intro hta
      exact h a (List.mem_cons_self a as) hta.symm

/-- C8: the registry is a pure dispatch table keyed by the `type` tag: for a
factory `f` registered after any earlier one with the same tag (and with no
later one overriding it), `component` on props whose data carries `f.type`
returns exactly `f.create` applied to the data with the `type` field removed
together with the unchanged change methods. -/
theorem c8_factory_dispatch {El P M : Type} (l₁ l₂ : List (Factory El P M))
    (f : Factory El P M) (p : P) (m : M)
    (h : ∀ g ∈ l₂, g.type ≠ f.type) :
    component (registerFactories (l₁ ++ f :: l₂))
      { data := { type := f.type, params := p }, methods := m }
      = some (f.create { data := p, methods := m }) := by
  unfold component registerFactories
  have hsplit : l₁ ++ f :: l₂ = (l₁ ++ [f]) ++ l₂ := by simp
  rw [hsplit, List.foldl_append, regFoldl_skip l₂ _ _ h, List.foldl_append]
  simp [regStep]

def c8fA : Factory Nat Nat Unit :=
  { type := ParamsType.text, create := fun props => props.data + 1 }

def c8fB : Factory Nat Nat Unit :=
  { type := ParamsType.text, create := fun props => props.data + 2 }

/-- Witness for C8: with two factories registered under the same tag, the
later registration wins and its `create` result is returned. -/
theorem c8_factory_dispatch_witness :
    component (registerFactories [c8fA, c8fB])
      { data := { type := c8fB.type, params := 5 }, methods := () }
      = some (c8fB.create { data := 5, methods := () }) :=
  c8_factory_dispatch [c8fA] [] c8fB 5 () (by simp)
